import Mathlib

/-!
Shallow embedding of the Xyzulu multi-provider subsystem: the normalized data
model and error taxonomy (`src/providers/types.ts`), the `QwenProvider`
operations (`src/providers/qwen/QwenProvider.ts`), the `ProviderRegistry`
(`src/providers/index.ts`), the resolver (`src/providers/resolver.ts`) and the
`ConfigManager` (`src/config/ConfigManager.ts`), together with theorems that
settle the specification claims about them.

HTTP transport, file I/O and timers are external collaborators; functions that
consumed them in the source are embedded as pure functions of the data those
collaborators deliver (the parsed vendor payload, the parsed configuration
document, the received stream lines).
-/

namespace Xyzulu

/-! ### JavaScript string primitives used by the source -/

/-- JS truthiness of an optional string field: `undefined` and `""` are falsy. -/
def strTruthy : Option String → Bool
  | none => false
  | some s => s != ""

/-- JS `String.prototype.trim` (ASCII whitespace, which is all the source ever meets). -/
def jsTrim (s : String) : String :=
  ⟨((s.data.dropWhile Char.isWhitespace).reverse.dropWhile Char.isWhitespace).reverse⟩

/-- JS `String.prototype.toLowerCase` on ASCII data. -/
def jsToLower (s : String) : String := ⟨s.data.map Char.toLower⟩

/-- JS `String.prototype.startsWith`. -/
def jsStartsWith (s pre : String) : Bool := pre.data.isPrefixOf s.data

/-- JS `s.slice(n)` for a nonnegative index. -/
def jsSlice (s : String) (n : Nat) : String := ⟨s.data.drop n⟩

/-- JS `String.prototype.length` (all strings involved are ASCII). -/
def jsLength (s : String) : Nat := s.data.length

/-- Character-level worker for `jsSplitNl`. -/
def splitNlChars : List Char → List (List Char)
  | [] => [[]]
  | c :: cs =>
    let r := splitNlChars cs
    if c = '\n' then [] :: r
    else
      match r with
      | [] => [[c]]
      | h :: t => (c :: h) :: t

/-- JS `s.split('\n')`. -/
def jsSplitNl (s : String) : List String := (splitNlChars s.data).map (⟨·⟩)

/-- JS `lines.join('\n')`. -/
def joinNl : List String → String
  | [] => ""
  | [s] => s
  | s :: t :: rest => s ++ "\n" ++ joinNl (t :: rest)

/-- JS `names.join(', ')`. -/
def joinComma : List String → String
  | [] => ""
  | [s] => s
  | s :: t :: rest => s ++ ", " ++ joinComma (t :: rest)

/-- JS regex `\w`: ASCII letters, digits and underscore. -/
def isWordChar (c : Char) : Bool := c.isAlphanum || c = '_'

/-- JS regex character class `[a-zA-Z0-9_-]`. -/
def isKeyChar (c : Char) : Bool := c.isAlphanum || c = '_' || c = '-'

/-! ### Normalized data model (`src/providers/types.ts`) -/

/-- Credentials/config of one provider (`ProviderConfig`).
The `customHeaders` map is not modeled: no embedded function reads it. -/
structure ProviderConfig where
  apiKey : String
  baseUrl : Option String
  timeout : Option Nat
  maxRetries : Option Nat
deriving DecidableEq

/-- A provider-name-indexed credential table (a plain JS object in the source). -/
abbrev ProviderMap := String → Option ProviderConfig

/-- The persisted root configuration (`MultiProviderConfig`). -/
structure MultiProviderConfig where
  providers : ProviderMap
  defaultProvider : Option String
  defaultModel : Option String

/-- Token usage breakdown of `LLMResponse.tokensUsed`. -/
structure TokensUsed where
  prompt : Nat
  completion : Nat
  total : Nat
deriving DecidableEq

/-- Provider-agnostic response (`LLMResponse`). The `metadata` map is modeled by
the two keys `QwenProvider.parseResponse` ever writes into it
(`request_id` and `code`). -/
structure LLMResponse where
  content : String
  provider : String
  model : String
  tokensUsed : Option TokensUsed
  finishReason : Option String
  requestId : Option String
  respCode : Option String
deriving DecidableEq

/-- Context hints for code generation (`CodeContext`). -/
structure CodeContext where
  filePath : Option String
  language : Option String
  existingCode : Option String
  projectStructure : Option (List String)
  requirements : Option String

/-- The operation tag of a `FileChange`. -/
inductive FileOp
  | create
  | modify
  | delete
deriving DecidableEq

/-- One proposed edit (`FileChange`). -/
structure FileChange where
  path : String
  operation : FileOp
  content : String
  diff : Option String
deriving DecidableEq

/-- Result of `generateCode` (`CodeGenerationResult`). -/
structure CodeGenerationResult where
  code : String
  explanation : Option String
  changes : Option (List FileChange)
  response : LLMResponse
deriving DecidableEq

/-- The `name` property distinguishing the `LLMError` subclasses. -/
inductive ErrorName
  | llmError
  | authenticationError
  | rateLimitError
  | networkError
  | validationError
  | providerError
deriving DecidableEq

/-- Normalized provider error (`LLMError` and its subclasses; the subclass is the
`name` field, as in the source's `this.name`). The diagnostic `metadata` map is
not modeled: no claim reads it. -/
structure LLMError where
  name : ErrorName
  message : String
  provider : String
  code : String
  statusCode : Option Nat
deriving DecidableEq

/-- Constructor `new AuthenticationError(message, provider, statusCode?)`. -/
def AuthenticationError (message provider : String) (statusCode : Option Nat) : LLMError :=
  { name := .authenticationError, message, provider, code := "AUTHENTICATION_ERROR", statusCode }

/-- Constructor `new RateLimitError(message, provider, statusCode?)`. -/
def RateLimitError (message provider : String) (statusCode : Option Nat) : LLMError :=
  { name := .rateLimitError, message, provider, code := "RATE_LIMIT_ERROR", statusCode }

/-- Constructor `new NetworkError(message, provider, statusCode?)`. -/
def NetworkError (message provider : String) (statusCode : Option Nat) : LLMError :=
  { name := .networkError, message, provider, code := "NETWORK_ERROR", statusCode }

/-- Constructor `new ValidationError(message, provider, statusCode?)`. -/
def ValidationError (message provider : String) (statusCode : Option Nat) : LLMError :=
  { name := .validationError, message, provider, code := "VALIDATION_ERROR", statusCode }

/-- Constructor `new ProviderError(message, provider, code, statusCode?)`. -/
def ProviderError (message provider code : String) (statusCode : Option Nat) : LLMError :=
  { name := .providerError, message, provider, code, statusCode }

/-- A thrown JavaScript exception: a plain `Error` or a normalized `LLMError`. -/
inductive JsError
  | plain (message : String)
  | llm (e : LLMError)
deriving DecidableEq

/-! ### QwenProvider (`src/providers/qwen/QwenProvider.ts`) -/

/-- Source `QwenProvider.validateConfig`: non-empty trimmed key matching `^[a-zA-Z0-9_-]+$`. -/
def qwenValidateConfig (config : ProviderConfig) : Bool :=
  if config.apiKey == "" || jsTrim config.apiKey == "" then false
  else !config.apiKey.data.isEmpty && config.apiKey.data.all isKeyChar

/-- Source `OpenAIProvider.validateConfig` (`src/providers/openai/OpenAIProvider.ts`). -/
def openaiValidateConfig (config : ProviderConfig) : Bool :=
  if config.apiKey == "" || jsTrim config.apiKey == "" then false
  else jsStartsWith config.apiKey "sk-" && decide (jsLength config.apiKey > 10)

/-- Source `AnthropicProvider.validateConfig` (`src/providers/anthropic/AnthropicProvider.ts`). -/
def anthropicValidateConfig (config : ProviderConfig) : Bool :=
  if config.apiKey == "" || jsTrim config.apiKey == "" then false
  else jsStartsWith config.apiKey "sk-ant-" && decide (jsLength config.apiKey > 15)

/-- Source `QwenProvider.handleHttpError`: normalize a vendor HTTP status. The response
body captured into the error `metadata` is not modeled. -/
def qwenHandleHttpError (status : Nat) : LLMError :=
  if status = 401 ∨ status = 403 then
    AuthenticationError "Invalid or missing API key" "qwen" (some status)
  else if status = 429 then
    RateLimitError "Rate limit exceeded" "qwen" (some status)
  else if status = 400 then
    ValidationError "Invalid request parameters" "qwen" (some status)
  else if status = 500 ∨ status = 502 ∨ status = 503 ∨ status = 504 then
    NetworkError ("Server error: " ++ toString status) "qwen" (some status)
  else
    ProviderError ("HTTP error: " ++ toString status) "qwen" ("HTTP_" ++ toString status)
      (some status)

/-- The `message` field of a DashScope choice. -/
structure DSMessage where
  content : Option String
deriving DecidableEq

/-- One DashScope choice. -/
structure DSChoice where
  message : Option DSMessage
  finish_reason : Option String
deriving DecidableEq

/-- DashScope usage block. -/
structure DSUsage where
  input_tokens : Option Nat
  output_tokens : Option Nat
  total_tokens : Option Nat
deriving DecidableEq

/-- DashScope `output` block. -/
structure DSOutput where
  choices : Option (List DSChoice)
  usage : Option DSUsage
deriving DecidableEq

/-- The vendor payload shape (`DashScopeResponse`): every field optional, as the
TypeScript interface declares. -/
structure DashScopeResponse where
  output : Option DSOutput
  code : Option String
  message : Option String
  request_id : Option String
deriving DecidableEq

/-- Source `QwenProvider.parseResponse`: normalize a DashScope payload; a payload whose
first choice or its message is missing raises a `ProviderError` with code
`INVALID_RESPONSE`. -/
def qwenParseResponse (response : DashScopeResponse) (model : String) :
    Except LLMError LLMResponse :=
  let choices := (response.output.bind (·.choices)).getD []
  match choices.head? with
  | none =>
      .error (ProviderError "Invalid response format from DashScope API" "qwen"
        "INVALID_RESPONSE" none)
  | some firstChoice =>
    match firstChoice.message with
    | none =>
        .error (ProviderError "Invalid response format from DashScope API" "qwen"
          "INVALID_RESPONSE" none)
    | some msg =>
        .ok { content := msg.content.getD ""
              provider := "qwen"
              model := model
              tokensUsed := (response.output.bind (·.usage)).map (fun u =>
                { prompt := u.input_tokens.getD 0
                  completion := u.output_tokens.getD 0
                  total := u.total_tokens.getD 0 })
              finishReason := firstChoice.finish_reason
              requestId := response.request_id
              respCode := response.code }

/-- Split a character list at the first occurrence of "```", returning the text
before and after it. -/
def splitAtFence : List Char → Option (List Char × List Char)
  | '`' :: '`' :: '`' :: rest => some ([], rest)
  | c :: cs => (splitAtFence cs).map (fun p => (c :: p.1, p.2))
  | [] => none

/-- Try the fenced-block pattern of the source regex
(three backticks, an optional word-character run, a newline, a lazily captured
body, three backticks) at the head of the list, returning the captured body. -/
def matchFenceAt : List Char → Option (List Char)
  | '`' :: '`' :: '`' :: rest =>
    match rest.dropWhile isWordChar with
    | '\n' :: body => (splitAtFence body).map Prod.fst
    | _ => none
  | _ => none

/-- Leftmost match of the fenced-block pattern anywhere in the list. -/
def firstFenceFrom : List Char → Option (List Char)
  | [] => none
  | c :: cs =>
    match matchFenceAt (c :: cs) with
    | some g => some g
    | none => firstFenceFrom cs

/-- First capture of the source regex ``/```(?:\w+)?\n([\s\S]*?)```/`` over the
content, i.e. `matches[0][1]` of `content.matchAll`. -/
def firstFencedBlock (content : String) : Option String :=
  (firstFenceFrom content.data).map (⟨·⟩)

/-- The fallback line scan of `extractCodeFromResponse`: walk the lines toggling
an in-code flag at each line whose trimmed form starts with "```", collecting the
lines seen while the flag is set. -/
def scanFenceLines : List String → Bool → List String
  | [], _ => []
  | line :: rest, inCode =>
    if jsStartsWith (jsTrim line) "```" then scanFenceLines rest (!inCode)
    else if inCode then line :: scanFenceLines rest inCode
    else scanFenceLines rest inCode

/-- Source `QwenProvider.extractCodeFromResponse`. -/
def extractCodeFromResponse (content : String) (language : Option String) : String :=
  match firstFencedBlock content with
  | some g => jsTrim g
  | none =>
    if strTruthy language then
      let codeLines := scanFenceLines (jsSplitNl content) false
      if codeLines.length > 0 then jsTrim (joinNl codeLines)
      else jsTrim content
    else jsTrim content

/-- The enriched prompt `QwenProvider.generateCode` builds from the context. -/
def buildEnhancedPrompt (prompt : String) (context : CodeContext) : String :=
  let p := prompt
  let p := if strTruthy context.filePath then
      "File: " ++ context.filePath.getD "" ++ "\n\n" ++ p
    else p
  let p := if strTruthy context.language then
      "Language: " ++ context.language.getD "" ++ "\n\n" ++ p
    else p
  let p := if strTruthy context.existingCode then
      "Existing code:\n```" ++ context.language.getD "" ++ "\n" ++
        context.existingCode.getD "" ++ "\n```\n\n" ++ p
    else p
  let p := if strTruthy context.requirements then
      "Requirements: " ++ context.requirements.getD "" ++ "\n\n" ++ p
    else p
  p

/-- Source `QwenProvider.generateCode`, given the normalized response that its internal
`sendMessage` call returned (the HTTP exchange is the external part).
`metadata.explanation` is never set by `parseResponse`, so `explanation` is
always absent. -/
def generateCodeResult (context : CodeContext) (response : LLMResponse) :
    CodeGenerationResult :=
  let code := extractCodeFromResponse response.content context.language
  { code := code
    explanation := none
    response := response
    changes :=
      if strTruthy context.filePath then
        some [{ path := context.filePath.getD ""
                operation := if strTruthy context.existingCode then .modify else .create
                content := code
                diff := none }]
      else none }

/-- The chunk loop of `QwenProvider.streamResponse` over the complete received
lines: the normalized responses yielded in order. `parse` stands for
`JSON.parse` applied to a data payload (`none` = the parse threw). The source's
inner `try`/`catch` wraps both `JSON.parse(data)` and
`yield this.parseResponse(parsed, ...)` and answers any throw with `continue`,
so a chunk that fails to parse and a parsed chunk whose normalization throws
are both skipped and the loop carries on. -/
def qwenProcessStreamLines (parse : String → Option DashScopeResponse) (model : String) :
    List String → List LLMResponse
  | [] => []
  | line :: rest =>
    if jsTrim line == "" || !jsStartsWith line "data: " then
      qwenProcessStreamLines parse model rest
    else
      let data := jsSlice line 6
      if data == "[DONE]" then []
      else
        match parse data with
        | none => qwenProcessStreamLines parse model rest
        | some r =>
          match qwenParseResponse r model with
          | .error _ => qwenProcessStreamLines parse model rest
          | .ok resp => resp :: qwenProcessStreamLines parse model rest

/-! ### ConfigManager (`src/config/ConfigManager.ts`) -/

/-- The empty configuration `{"providers": {}}`. -/
def emptyConfig : MultiProviderConfig :=
  { providers := fun _ => none, defaultProvider := none, defaultModel := none }

/-- A configuration document as `JSON.parse` delivers it: each recognized
top-level key absent or present. The source's `'key' in parsed` membership test
is `Option.isSome` here. -/
structure RawConfigDoc where
  apiKey : Option String
  providers : Option ProviderMap
  defaultProvider : Option String
  defaultModel : Option String

/-- What reading and parsing the configuration file yields at load time. -/
inductive ConfigFile
  | missing
  | unreadable
  | parsed (doc : RawConfigDoc)

/-- Source `ConfigManager.migrateOldConfig`: the migrated configuration, plus the
document persisted back to disk when migration actually ran. -/
def migrateOldConfig (old : RawConfigDoc) : MultiProviderConfig × Option MultiProviderConfig :=
  if strTruthy old.apiKey then
    let newConfig : MultiProviderConfig :=
      { providers := fun q =>
          if q = "qwen" then
            some { apiKey := old.apiKey.getD "", baseUrl := none, timeout := none,
                   maxRetries := none }
          else none
        defaultProvider := some "qwen"
        defaultModel := if strTruthy old.defaultModel then old.defaultModel else none }
    (newConfig, some newConfig)
  else (emptyConfig, none)

/-- Source `ConfigManager.loadConfig`: the in-memory configuration, plus the document
written back to disk during legacy migration, if any. A missing file and an
unreadable or unparseable one both load as the empty configuration. -/
def loadConfig (file : ConfigFile) : MultiProviderConfig × Option MultiProviderConfig :=
  match file with
  | .missing => (emptyConfig, none)
  | .unreadable => (emptyConfig, none)
  | .parsed doc =>
    if doc.apiKey.isSome && !doc.providers.isSome then migrateOldConfig doc
    else
      match doc.providers with
      | none => (emptyConfig, none)
      | some provs =>
          ({ providers := provs, defaultProvider := doc.defaultProvider,
             defaultModel := doc.defaultModel }, none)

/-- Source `ConfigManager.getProviderKey`. -/
def getProviderKey (config : MultiProviderConfig) (provider : String) : Option String :=
  (config.providers provider).map (·.apiKey)

/-- Source `ConfigManager.setProviderKey` (the in-memory result; the source then
persists this same value). -/
def setProviderKey (config : MultiProviderConfig) (provider key : String) :
    MultiProviderConfig :=
  { config with
    providers := fun q =>
      if q = provider then
        some (match config.providers provider with
          | none => { apiKey := key, baseUrl := none, timeout := none, maxRetries := none }
          | some c => { c with apiKey := key })
      else config.providers q }

/-- Source `ConfigManager.getDefaultProvider`. -/
def getDefaultProvider (config : MultiProviderConfig) : Option String :=
  config.defaultProvider

/-- Source `ConfigManager.validateProviderKey`: the per-provider key format check. -/
def validateProviderKey (provider key : String) : Bool :=
  if key == "" || jsTrim key == "" then false
  else
    match jsToLower provider with
    | "qwen" => !key.data.isEmpty && key.data.all isKeyChar
    | "openai" => jsStartsWith key "sk-" && decide (jsLength key > 10)
    | "anthropic" => jsStartsWith key "sk-ant-" && decide (jsLength key > 15)
    | _ => decide (jsLength key > 5)

/-! ### ProviderRegistry (`src/providers/index.ts`)

The registry's JS `Map`s are embedded as insertion-ordered association lists,
so that `list()` (used in resolver error messages) keeps its meaning. -/

/-- JS `Map.prototype.set`: replace in place when the key is present, else append. -/
def mapSet {α : Type} (m : List (String × α)) (k : String) (v : α) : List (String × α) :=
  match m with
  | [] => [(k, v)]
  | (k', v') :: rest => if k' = k then (k, v) :: rest else (k', v') :: mapSet rest k v

/-- JS `Map.prototype.get`. -/
def mapGet {α : Type} (m : List (String × α)) (k : String) : Option α :=
  match m with
  | [] => none
  | (k', v') :: rest => if k' = k then some v' else mapGet rest k

/-- JS `Map.prototype.delete` (ignoring the returned boolean where unused). -/
def mapDelete {α : Type} (m : List (String × α)) (k : String) : List (String × α) :=
  match m with
  | [] => []
  | (k', v') :: rest => if k' = k then mapDelete rest k else (k', v') :: mapDelete rest k

/-- The capability view of a registered provider that the registry consumes
(the `LLMProvider` interface methods it calls). -/
class ProviderLike (π : Type) where
  getName : π → String
  getSupportedModels : π → List String

/-- State of the source `ProviderRegistry`. -/
structure Registry (π : Type) where
  providers : List (String × π)
  modelToProvider : List (String × String)
  defaultProviderName : Option String

variable {π : Type}

/-- A freshly constructed registry. -/
def Registry.empty (π : Type) : Registry π :=
  { providers := [], modelToProvider := [], defaultProviderName := none }

/-- Source `ProviderRegistry.register`: throws when the name is blank (a null provider
cannot be expressed here); else records the provider under `name` and points
each of its supported models at `name`. -/
def Registry.register [ProviderLike π] (reg : Registry π) (provider : π) (name : String) :
    Except String (Registry π) :=
  if name == "" || jsTrim name == "" then .error "Provider name cannot be empty"
  else
    .ok { reg with
          providers := mapSet reg.providers name provider
          modelToProvider := (ProviderLike.getSupportedModels provider).foldl
            (fun f model => mapSet f model name) reg.modelToProvider }

/-- Source `ProviderRegistry.get`. -/
def Registry.get (reg : Registry π) (name : String) : Option π :=
  mapGet reg.providers name

/-- Source `ProviderRegistry.getByModel`: model index first, then the current
registration for that provider name. -/
def Registry.getByModel (reg : Registry π) (modelId : String) : Option π :=
  match mapGet reg.modelToProvider modelId with
  | none => none
  | some providerName => mapGet reg.providers providerName

/-- Source `ProviderRegistry.list`. -/
def Registry.list (reg : Registry π) : List String :=
  reg.providers.map Prod.fst

/-- Source `ProviderRegistry.has`. -/
def Registry.has (reg : Registry π) (name : String) : Bool :=
  (mapGet reg.providers name).isSome

/-- Source `ProviderRegistry.getDefault`. -/
def Registry.getDefault (reg : Registry π) : Option π :=
  match reg.defaultProviderName with
  | none => none
  | some n => if n == "" then none else mapGet reg.providers n

/-- Source `ProviderRegistry.setDefault`: throws when `name` is not registered. -/
def Registry.setDefault (reg : Registry π) (name : String) : Except String (Registry π) :=
  if (mapGet reg.providers name).isSome then
    .ok { reg with defaultProviderName := some name }
  else .error ("Provider \"" ++ name ++ "\" is not registered")

/-- Source `ProviderRegistry.unregister`. -/
def Registry.unregister [ProviderLike π] (reg : Registry π) (name : String) :
    Registry π × Bool :=
  match mapGet reg.providers name with
  | none => (reg, false)
  | some provider =>
    ({ providers := mapDelete reg.providers name
       modelToProvider := (ProviderLike.getSupportedModels provider).foldl
         (fun f model => if mapGet f model == some name then mapDelete f model else f)
         reg.modelToProvider
       defaultProviderName :=
         if reg.defaultProviderName == some name then none else reg.defaultProviderName },
     true)

/-- Source `ProviderRegistry.clear`. -/
def Registry.clear (reg : Registry π) : Registry π :=
  let _ := reg
  Registry.empty π

/-! ### Resolver (`src/providers/resolver.ts`) -/

/-- The static model-to-provider table `MODEL_TO_PROVIDER`. -/
def MODEL_TO_PROVIDER : List (String × String) :=
  [("qwen-turbo", "qwen"), ("qwen-plus", "qwen"), ("qwen-max", "qwen"),
   ("qwen-max-longcontext", "qwen"),
   ("gpt-4o", "openai"), ("gpt-4-turbo", "openai"), ("gpt-4", "openai"),
   ("gpt-3.5-turbo", "openai"),
   ("claude-3-opus", "anthropic"), ("claude-3-sonnet", "anthropic"),
   ("claude-3-haiku", "anthropic"), ("claude-3-5-sonnet", "anthropic")]

/-- A concrete provider instance the resolver can construct
(`QwenProvider`, `OpenAIProvider`, `AnthropicProvider`), capturing its
construction credentials. -/
inductive ProviderInstance
  | qwen (config : ProviderConfig)
  | openai (config : ProviderConfig)
  | anthropic (config : ProviderConfig)
deriving DecidableEq

/-- Method `getName()` of each provider class. -/
def ProviderInstance.getName : ProviderInstance → String
  | .qwen _ => "qwen"
  | .openai _ => "openai"
  | .anthropic _ => "anthropic"

/-- Method `getSupportedModels()` of each provider class. -/
def ProviderInstance.getSupportedModels : ProviderInstance → List String
  | .qwen _ => ["qwen-turbo", "qwen-plus", "qwen-max", "qwen-max-longcontext"]
  | .openai _ => ["gpt-4o", "gpt-4-turbo", "gpt-4", "gpt-3.5-turbo"]
  | .anthropic _ => ["claude-3-opus", "claude-3-5-sonnet", "claude-3-sonnet", "claude-3-haiku"]

instance : ProviderLike ProviderInstance :=
  ⟨ProviderInstance.getName, ProviderInstance.getSupportedModels⟩

/-- Source `resolveProviderName`: a registered provider name stands for itself,
otherwise the lowercased hint is looked up in the static model table. -/
def resolveProviderName (reg : Registry ProviderInstance) (modelOrProvider : Option String) :
    Option String :=
  match modelOrProvider with
  | none => none
  | some s =>
    if s == "" then none
    else if reg.has s then some s
    else mapGet MODEL_TO_PROVIDER (jsToLower s)

/-- Source `createProviderInstance`. -/
def createProviderInstance (providerName : String) (config : ProviderConfig) :
    Except JsError ProviderInstance :=
  match jsToLower providerName with
  | "qwen" => .ok (.qwen config)
  | "openai" => .ok (.openai config)
  | "anthropic" => .ok (.anthropic config)
  | _ => .error (.plain ("Unknown provider: " ++ providerName))

/-- The resolver's "unknown model or provider" message, listing the currently
registered provider names. -/
def unknownModelOrProviderMsg (s : String) (reg : Registry ProviderInstance) : String :=
  "Unknown model or provider: \"" ++ s ++ "\". Available providers: " ++ joinComma reg.list

/-- The resolver's "no provider configured" authentication error. -/
def noProviderConfiguredError : LLMError :=
  AuthenticationError "No provider configured. Please set an API key for at least one provider."
    "unknown" none

/-- The resolver's "API key not configured" authentication error for a provider. -/
def authKeyMissingError (providerName : String) : LLMError :=
  AuthenticationError
    ("API key not configured for provider \"" ++ providerName ++ "\". " ++
      "Please set it with: xyzulu config set " ++ providerName ++ ".apiKey <key>")
    providerName none

/-- The resolver's "invalid API key format" authentication error for a provider. -/
def authKeyFormatError (providerName : String) : LLMError :=
  AuthenticationError ("Invalid API key format for provider \"" ++ providerName ++ "\"")
    providerName none

/-- Truthiness of `effectiveConfig.providers.qwen?.apiKey`. -/
def qwenFallbackAvailable (config : MultiProviderConfig) : Bool :=
  match config.providers "qwen" with
  | some c => c.apiKey != ""
  | none => false

/-- The provider-name selection phase of `resolveProvider` (priorities 1 to 4 of
the source: CLI hint, configuration default, qwen fallback, failure). -/
def resolveChooseName (modelOrProvider : Option String) (config : MultiProviderConfig)
    (reg : Registry ProviderInstance) : Except JsError String :=
  if strTruthy modelOrProvider then
    match resolveProviderName reg modelOrProvider with
    | some n => .ok n
    | none => .error (.plain (unknownModelOrProviderMsg (modelOrProvider.getD "") reg))
  else if strTruthy config.defaultProvider then .ok (config.defaultProvider.getD "")
  else if qwenFallbackAvailable config then .ok "qwen"
  else .error (.llm noProviderConfiguredError)

/-- The credential-check and instantiation phase of `resolveProvider`, once a
provider name has been chosen. -/
def resolveFinish (providerName : String) (config : MultiProviderConfig)
    (reg : Registry ProviderInstance) :
    Except JsError (ProviderInstance × Registry ProviderInstance) :=
  match config.providers providerName with
  | none => .error (.llm (authKeyMissingError providerName))
  | some providerConfig =>
    if providerConfig.apiKey == "" then .error (.llm (authKeyMissingError providerName))
    else if !validateProviderKey providerName providerConfig.apiKey then
      .error (.llm (authKeyFormatError providerName))
    else
      match reg.get providerName with
      | some provider => .ok (provider, reg)
      | none =>
        match createProviderInstance providerName providerConfig with
        | .error e => .error e
        | .ok provider =>
          match reg.register provider providerName with
          | .error msg => .error (.plain msg)
          | .ok reg' => .ok (provider, reg')

/-- Source `resolveProvider`: choose a provider name by strict priority, validate its
credentials, and return the (possibly newly constructed and registered) provider
with the updated registry. The singleton registry and configuration manager of
the source are explicit arguments here; `validateProviderKey` is stateless in
the source, so the manager reduces to the configuration value. -/
def resolveProvider (modelOrProvider : Option String) (config : MultiProviderConfig)
    (reg : Registry ProviderInstance) :
    Except JsError (ProviderInstance × Registry ProviderInstance) :=
  match resolveChooseName modelOrProvider config reg with
  | .error e => .error e
  | .ok providerName => resolveFinish providerName config reg

/-! ### Registry operation sequences and mock providers (mirroring the unit tests) -/

/-- A mock provider as the registry unit tests build them; `tag` distinguishes
separately constructed instances with equal name and model list. -/
structure MockProvider where
  mockName : String
  models : List String
  tag : Nat
deriving DecidableEq

instance : ProviderLike MockProvider := ⟨MockProvider.mockName, MockProvider.models⟩

/-- One public mutating registry operation. -/
inductive RegOp (π : Type)
  | registerOp (provider : π) (name : String)
  | unregisterOp (name : String)
  | setDefaultOp (name : String)
  | clearOp

/-- Apply one operation; a thrown registration or setDefault error leaves the
registry unchanged, as in the source (the throw happens before any mutation). -/
def applyRegOp [ProviderLike π] (reg : Registry π) : RegOp π → Registry π
  | .registerOp p n =>
    match reg.register p n with
    | .ok r => r
    | .error _ => reg
  | .unregisterOp n => (reg.unregister n).1
  | .setDefaultOp n =>
    match reg.setDefault n with
    | .ok r => r
    | .error _ => reg
  | .clearOp => reg.clear

/-- Run a sequence of operations from a freshly constructed registry. -/
def applyRegOps [ProviderLike π] (ops : List (RegOp π)) : Registry π :=
  ops.foldl applyRegOp (Registry.empty π)

/-! ### Association-list map lemmas -/

theorem mapGet_mapSet_self {α : Type} (m : List (String × α)) (k : String) (v : α) :
    mapGet (mapSet m k v) k = some v := by
  induction m with
  | nil => simp [mapSet, mapGet]
  | cons hd tl ih =>
    obtain ⟨k', v'⟩ := hd
    by_cases h : k' = k
    · simp [mapSet, mapGet, h]
    · simp [mapSet, mapGet, h, ih]

theorem mapGet_mapSet_ne {α : Type} (m : List (String × α)) (k k' : String) (v : α)
    (h : k' ≠ k) : mapGet (mapSet m k v) k' = mapGet m k' := by
  induction m with
  | nil => simp [mapSet, mapGet, Ne.symm h]
  | cons hd tl ih =>
    obtain ⟨k0, v0⟩ := hd
    by_cases hk : k0 = k
    · subst hk
      simp [mapSet, mapGet, Ne.symm h]
    · simp [mapSet, mapGet, hk, ih]

theorem foldSet_not_mem (l : List String) (idx : List (String × String)) (nm m : String)
    (h : m ∉ l) :
    mapGet (l.foldl (fun f md => mapSet f md nm) idx) m = mapGet idx m := by
  induction l generalizing idx with
  | nil => rfl
  | cons a t ih =>
    simp only [List.foldl]
    have hm : m ∉ t := fun hmem => h (List.mem_cons_of_mem a hmem)
    have ha : m ≠ a := fun he => h (he ▸ List.mem_cons_self a t)
    rw [ih (mapSet idx a nm) hm, mapGet_mapSet_ne idx a m nm ha]

theorem foldSet_mem (l : List String) (idx : List (String × String)) (nm m : String)
    (h : m ∈ l) :
    mapGet (l.foldl (fun f md => mapSet f md nm) idx) m = some nm := by
  induction l generalizing idx with
  | nil => cases h
  | cons a t ih =>
    simp only [List.foldl]
    by_cases hm : m ∈ t
    · exact ih _ hm
    · have hma : m = a := by
        rcases List.mem_cons.mp h with h1 | h2
        · exact h1
        · exact absurd h2 hm
      subst hma
      rw [foldSet_not_mem t _ nm m hm, mapGet_mapSet_self]

/-- Whatever the registry state, a successful `getByModel` resolves through the
current name-to-provider map, so the returned instance is currently registered. -/
theorem getByModel_is_registered (reg : Registry π) (m : String) (p : π)
    (hc : reg.getByModel m = some p) : ∃ n, reg.get n = some p := by
  unfold Registry.getByModel at hc
  cases h : mapGet reg.modelToProvider m with
  | none => rw [h] at hc; cases hc
  | some n => rw [h] at hc; exact ⟨n, hc⟩

/-- Same for `getDefault`: a returned default instance is currently registered. -/
theorem getDefault_is_registered (reg : Registry π) (p : π)
    (hc : reg.getDefault = some p) : ∃ n, reg.get n = some p := by
  rcases hdef : reg.defaultProviderName with _ | n
  · simp [Registry.getDefault, hdef] at hc
  · simp only [Registry.getDefault, hdef] at hc
    by_cases hn : n = ""
    · subst hn
      simp at hc
    · simp only [beq_iff_eq, hn, if_false] at hc
      exact ⟨n, hc⟩

/-! ### Claim theorems -/

/-- C4: registering a provider under a name (blank names are rejected) succeeds
with no collision error, overwrites any prior registration under that name, and
re-points every one of the provider's supported models at it, so `getByModel`
returns the provider just registered — in particular the most recently
registered owner when two providers claim the same model. -/
theorem c4_register_reindexes_models :
    ∀ (reg : Registry MockProvider) (p : MockProvider) (nm m : String),
    jsTrim nm ≠ "" → m ∈ p.models →
    ∃ reg', reg.register p nm = Except.ok reg' ∧
      reg'.getByModel m = some p ∧ reg'.get nm = some p := by
  intro reg p nm m hnm hm
  have hne : nm ≠ "" := by
    intro h
    subst h
    exact hnm rfl
  have hcond : (nm == "" || jsTrim nm == "") = false := by
    simp only [Bool.or_eq_false_iff, beq_eq_false_iff_ne, ne_eq]
    exact ⟨hne, hnm⟩
  refine ⟨{ reg with
            providers := mapSet reg.providers nm p
            modelToProvider := (ProviderLike.getSupportedModels p).foldl
              (fun f model => mapSet f model nm) reg.modelToProvider }, ?_, ?_, ?_⟩
  · unfold Registry.register
    rw [hcond]
    rfl
  · unfold Registry.getByModel
    have hmodels : ProviderLike.getSupportedModels p = p.models := rfl
    rw [hmodels]
    simp only
    rw [foldSet_mem p.models reg.modelToProvider nm m hm]
    exact mapGet_mapSet_self reg.providers nm p
  · exact mapGet_mapSet_self reg.providers nm p

/-- Concrete instantiation of `c4_register_reindexes_models`. -/
def mockA : MockProvider := { mockName := "test", models := ["model1", "model2"], tag := 0 }

/-- Witness for C4 at a concrete registration. -/
theorem c4_register_reindexes_models_witness :
    ∃ reg', (Registry.empty MockProvider).register mockA "test" = Except.ok reg' ∧
      reg'.getByModel "model1" = some mockA ∧ reg'.get "test" = some mockA :=
  c4_register_reindexes_models (Registry.empty MockProvider) mockA "test" "model1"
    (by decide) (by decide)

/-- C10: after any sequence of registry operations run from a fresh registry,
`getByModel` and `getDefault` return only `none` or an instance that is still
the current registration under some name — a removed or replaced instance is
never returned, stale model-index entries notwithstanding. -/
theorem c10_registry_integrity :
    ∀ (π : Type) [ProviderLike π] (ops : List (RegOp π)) (m : String) (p : π),
    ((applyRegOps ops).getByModel m = some p → ∃ n, (applyRegOps ops).get n = some p) ∧
    ((applyRegOps ops).getDefault = some p → ∃ n, (applyRegOps ops).get n = some p) := by
  intro π inst ops m p
  exact ⟨getByModel_is_registered (applyRegOps ops) m p,
    getDefault_is_registered (applyRegOps ops) p⟩

/-- Concrete operation sequence for the C10 witness. -/
def opsW : List (RegOp MockProvider) := [RegOp.registerOp mockA "test", RegOp.setDefaultOp "test"]

/-- Witness for C10 at a concrete operation sequence. -/
theorem c10_registry_integrity_witness :
    ∃ n, (applyRegOps opsW).get n = some mockA :=
  (c10_registry_integrity MockProvider opsW "model1" mockA).1 (by decide)

/-- C3 counterexample: HTTP status 501 is a 5xx status, yet
`QwenProvider.handleHttpError` maps it to a generic `ProviderError` with code
"HTTP_501", not to a `NetworkError` as the claim's "every 5xx" requires. -/
theorem c3_counterexample :
    500 ≤ 501 ∧ 501 ≤ 599 ∧
    (qwenHandleHttpError 501).name = ErrorName.providerError ∧
    (qwenHandleHttpError 501).name ≠ ErrorName.networkError ∧
    (qwenHandleHttpError 501).code = "HTTP_501" := by
  refine ⟨by norm_num, by norm_num, by decide, by decide, by decide⟩

/-- C3 (amended): statuses 401 and 403 normalize to Authentication, 429 to
RateLimit, 400 to Validation, exactly 500, 502, 503 and 504 to Network, and
every other status to a generic ProviderError carrying code
`HTTP_<status>` and the raw status. -/
theorem c3_http_status_mapping :
    ∀ status : Nat,
    ((status = 401 ∨ status = 403) →
      (qwenHandleHttpError status).name = ErrorName.authenticationError) ∧
    (status = 429 → (qwenHandleHttpError status).name = ErrorName.rateLimitError) ∧
    (status = 400 → (qwenHandleHttpError status).name = ErrorName.validationError) ∧
    ((status = 500 ∨ status = 502 ∨ status = 503 ∨ status = 504) →
      (qwenHandleHttpError status).name = ErrorName.networkError) ∧
    (status ≠ 401 → status ≠ 403 → status ≠ 429 → status ≠ 400 → status ≠ 500 →
     status ≠ 502 → status ≠ 503 → status ≠ 504 →
      (qwenHandleHttpError status).name = ErrorName.providerError ∧
      (qwenHandleHttpError status).code = "HTTP_" ++ toString status ∧
      (qwenHandleHttpError status).statusCode = some status) := by
  intro status
  refine ⟨?_, ?_, ?_, ?_, ?_⟩
  · rintro (rfl | rfl) <;> decide
  · rintro rfl; decide
  · rintro rfl; decide
  · rintro (rfl | rfl | rfl | rfl) <;> decide
  · intro h401 h403 h429 h400 h500 h502 h503 h504
    unfold qwenHandleHttpError
    rw [if_neg (by omega), if_neg h429, if_neg h400, if_neg (by omega)]
    exact ⟨rfl, rfl, rfl⟩

/-- Witness for C3's amended mapping at the unlisted status 418. -/
theorem c3_http_status_mapping_witness :
    (qwenHandleHttpError 418).name = ErrorName.providerError ∧
    (qwenHandleHttpError 418).code = "HTTP_" ++ toString 418 ∧
    (qwenHandleHttpError 418).statusCode = some 418 :=
  (c3_http_status_mapping 418).2.2.2.2 (by decide) (by decide) (by decide) (by decide)
    (by decide) (by decide) (by decide) (by decide)

/-- C5: `generateCode` produces exactly one `FileChange` at the context's file
path — tagged `modify` when a (non-empty) existing code text was supplied and
`create` otherwise — whenever a (non-empty) file path was given, and no changes
at all otherwise. -/
theorem c5_generateCode_changes :
    ∀ (context : CodeContext) (response : LLMResponse) (fp : String),
    (context.filePath = some fp → fp ≠ "" →
      (generateCodeResult context response).changes =
        some [{ path := fp
                operation := if strTruthy context.existingCode then FileOp.modify
                  else FileOp.create
                content := extractCodeFromResponse response.content context.language
                diff := none }]) ∧
    (strTruthy context.filePath = false →
      (generateCodeResult context response).changes = none) := by
  intro ctx resp fp
  constructor
  · intro hfp hne
    have ht : strTruthy (some fp) = true := by
      simp [strTruthy, hne]
    simp [generateCodeResult, hfp, ht]
  · intro hf
    simp [generateCodeResult, hf]

/-- Concrete context for the C5 witness: a file path and existing code. -/
def ctxW : CodeContext :=
  { filePath := some "a.ts", language := none, existingCode := some "x",
    projectStructure := none, requirements := none }

/-- Concrete response for the C5 witness. -/
def respW : LLMResponse :=
  { content := "code here", provider := "qwen", model := "qwen-turbo", tokensUsed := none,
    finishReason := none, requestId := none, respCode := none }

/-- Witness for C5 at a concrete context and response. -/
theorem c5_generateCode_changes_witness :
    (generateCodeResult ctxW respW).changes =
      some [{ path := "a.ts"
              operation := if strTruthy ctxW.existingCode then FileOp.modify else FileOp.create
              content := extractCodeFromResponse respW.content ctxW.language
              diff := none }] :=
  (c5_generateCode_changes ctxW respW "a.ts").1 rfl (by decide)

/-- The legacy single-provider configuration document of C8's example,
`JSON.parse` of `{"apiKey":"sk-old","defaultModel":"qwen-turbo"}`. -/
def legacyDoc : RawConfigDoc :=
  { apiKey := some "sk-old", providers := none, defaultProvider := none,
    defaultModel := some "qwen-turbo" }

/-- C8: loading the legacy document migrates it — `getProviderKey "qwen"` is
"sk-old", the default provider becomes "qwen", and the migrated multi-provider
document is persisted back — while a corrupt or missing file loads as the empty
configuration with nothing persisted. -/
theorem c8_legacy_migration :
    getProviderKey (loadConfig (ConfigFile.parsed legacyDoc)).1 "qwen" = some "sk-old" ∧
    getDefaultProvider (loadConfig (ConfigFile.parsed legacyDoc)).1 = some "qwen" ∧
    (loadConfig (ConfigFile.parsed legacyDoc)).2 =
      some (loadConfig (ConfigFile.parsed legacyDoc)).1 ∧
    getProviderKey (loadConfig (ConfigFile.parsed legacyDoc)).1 "openai" = none ∧
    loadConfig ConfigFile.unreadable = (emptyConfig, none) ∧
    loadConfig ConfigFile.missing = (emptyConfig, none) :=
  ⟨rfl, rfl, rfl, rfl, rfl, rfl⟩

/-- C9: `setProviderKey` followed by `getProviderKey` for the same provider
returns the key just set, and setting a different provider's key leaves any
other provider's stored key untouched. -/
theorem c9_provider_key_roundtrip :
    ∀ (config : MultiProviderConfig) (p q k k2 : String),
    getProviderKey (setProviderKey config p k) p = some k ∧
    (q ≠ p → getProviderKey (setProviderKey config q k2) p = getProviderKey config p) := by
  intro config p q k k2
  constructor
  · unfold getProviderKey setProviderKey
    simp only [if_pos rfl]
    cases config.providers p <;> rfl
  · intro hqp
    unfold getProviderKey setProviderKey
    simp only
    rw [if_neg (fun h => hqp h.symm)]

/-- Witness for C9: the "openai" key survives a later write to "qwen". -/
theorem c9_provider_key_roundtrip_witness :
    getProviderKey (setProviderKey (setProviderKey emptyConfig "openai" "K1") "qwen" "K2")
        "openai" =
      getProviderKey (setProviderKey emptyConfig "openai" "K1") "openai" :=
  (c9_provider_key_roundtrip (setProviderKey emptyConfig "openai" "K1") "openai" "qwen"
    "K1" "K2").2 (by decide)

/-! ### C1: the claimed selection algorithm, stated from the specification's words -/

/-- Stated from the claim: the built-in qwen fallback — use "qwen" when it has a
non-empty API key in the configuration, else fail with the Authentication error
stating no provider is configured. -/
def specQwenFallback (config : MultiProviderConfig) : Except JsError String :=
  match config.providers "qwen" with
  | some cred =>
    if cred.apiKey ≠ "" then .ok "qwen" else .error (.llm noProviderConfiguredError)
  | none => .error (.llm noProviderConfiguredError)

/-- Stated from the claim: with no hint, the name is `config.defaultProvider`
when set, else the qwen fallback decides. -/
def specNoHintSelection (config : MultiProviderConfig) : Except JsError String :=
  match config.defaultProvider with
  | some d => if d ≠ "" then .ok d else specQwenFallback config
  | none => specQwenFallback config

/-- Stated from the claim: a hint is resolved first as a registered provider
name, otherwise through the static model-to-provider table, and failing both,
resolution fails immediately with the "unknown model or provider" error listing
the currently registered provider names — never falling through. -/
def specHintResolution (h : String) (reg : Registry ProviderInstance) : Except JsError String :=
  if reg.has h then .ok h
  else
    match mapGet MODEL_TO_PROVIDER (jsToLower h) with
    | some owner => .ok owner
    | none => .error (.plain (unknownModelOrProviderMsg h reg))

/-- Stated from the claim: the strict-priority provider-name selection. An
absent or empty hint counts as "no hint", the source's notion of a present
optional string. -/
def specSelectProviderName (hint : Option String) (config : MultiProviderConfig)
    (reg : Registry ProviderInstance) : Except JsError String :=
  match hint with
  | some h => if h ≠ "" then specHintResolution h reg else specNoHintSelection config
  | none => specNoHintSelection config

/-- The hint-free tail of `resolveChooseName` agrees with the claim's
no-hint selection. -/
theorem noHintSelection_eq (config : MultiProviderConfig) :
    (if strTruthy config.defaultProvider then
        Except.ok (config.defaultProvider.getD "")
      else if qwenFallbackAvailable config then Except.ok "qwen"
      else Except.error (JsError.llm noProviderConfiguredError)) =
      specNoHintSelection config := by
  have hq : (if qwenFallbackAvailable config then (Except.ok "qwen" : Except JsError String)
      else Except.error (JsError.llm noProviderConfiguredError)) = specQwenFallback config := by
    rcases hqw : config.providers "qwen" with _ | c
    · simp [qwenFallbackAvailable, specQwenFallback, hqw]
    · by_cases hk : c.apiKey = ""
      · simp [qwenFallbackAvailable, specQwenFallback, hqw, hk]
      · simp [qwenFallbackAvailable, specQwenFallback, hqw, hk]
  rcases hdp : config.defaultProvider with _ | d
  · simp only [hdp, strTruthy, Bool.false_eq_true, if_false, specNoHintSelection]
    exact hq
  · by_cases hd : d = ""
    · subst hd
      simp only [hdp, strTruthy, specNoHintSelection]
      simpa using hq
    · simp [hdp, strTruthy, specNoHintSelection, hd]

/-- The name-selection phase of the resolver computes the claim's algorithm. -/
theorem chooseName_eq_spec (hint : Option String) (config : MultiProviderConfig)
    (reg : Registry ProviderInstance) :
    resolveChooseName hint config reg = specSelectProviderName hint config reg := by
  rcases hint with _ | h
  · exact noHintSelection_eq config
  · by_cases hh : h = ""
    · subst hh
      have : resolveChooseName (some "") config reg =
          (if strTruthy config.defaultProvider then
            Except.ok (config.defaultProvider.getD "")
          else if qwenFallbackAvailable config then Except.ok "qwen"
          else Except.error (JsError.llm noProviderConfiguredError)) := rfl
      rw [this, noHintSelection_eq]
      simp [specSelectProviderName]
    · have hbne : (h == "") = false := by simp [hh]
      by_cases hr : reg.has h
      · simp [resolveChooseName, specSelectProviderName, specHintResolution,
          resolveProviderName, strTruthy, hh, hbne, hr]
      · rcases hm : mapGet MODEL_TO_PROVIDER (jsToLower h) with _ | owner
        · simp [resolveChooseName, specSelectProviderName, specHintResolution,
            resolveProviderName, strTruthy, hh, hbne, hr, hm]
        · simp [resolveChooseName, specSelectProviderName, specHintResolution,
            resolveProviderName, strTruthy, hh, hbne, hr, hm]

/-- C1: `resolveProvider` selects the provider name exactly by the claimed
strict priority algorithm — a given hint is resolved as a registered provider
name, else through the static model table, else resolution fails immediately
with the "unknown model or provider" error listing the registered provider
names; with no hint the name is `config.defaultProvider` when set, else "qwen"
when its configured API key is non-empty, else an Authentication error stating
no provider is configured — and only then does the credential phase run. -/
theorem c1_resolver_priority :
    ∀ (hint : Option String) (config : MultiProviderConfig) (reg : Registry ProviderInstance),
    resolveProvider hint config reg =
      match specSelectProviderName hint config reg with
      | .error e => .error e
      | .ok n => resolveFinish n config reg := by
  intro hint config reg
  unfold resolveProvider
  rw [chooseName_eq_spec]

/-! ### C2: credential checks after a name is chosen -/

/-- Configuration holding valid "openai" credentials, for C2's positive case. -/
def cfgOpenaiOk : MultiProviderConfig :=
  { providers := fun q =>
      if q = "openai" then
        some { apiKey := "sk-valid-openai-key", baseUrl := none, timeout := none,
               maxRetries := none }
      else none
    defaultProvider := none
    defaultModel := none }

/-- C2: for any chosen provider name, absent or empty credentials fail with an
Authentication error naming the provider (its message carrying the remediation
command), a failing provider-specific key format check fails with an
Authentication error; resolving hint "gpt-4o" with no "openai" credentials fails
with an Authentication error naming "openai", and with valid openai credentials
returns a provider whose name is "openai". -/
theorem c2_credential_checks :
    ∀ (providerName : String) (config : MultiProviderConfig) (reg : Registry ProviderInstance),
    (getProviderKey config providerName = none ∨ getProviderKey config providerName = some "" →
      resolveFinish providerName config reg =
        .error (.llm (authKeyMissingError providerName)) ∧
      (authKeyMissingError providerName).name = ErrorName.authenticationError ∧
      (authKeyMissingError providerName).provider = providerName) ∧
    (∀ cred, config.providers providerName = some cred → cred.apiKey ≠ "" →
      validateProviderKey providerName cred.apiKey = false →
      resolveFinish providerName config reg =
        .error (.llm (authKeyFormatError providerName)) ∧
      (authKeyFormatError providerName).name = ErrorName.authenticationError ∧
      (authKeyFormatError providerName).provider = providerName) ∧
    (∃ e, resolveProvider (some "gpt-4o") emptyConfig (Registry.empty ProviderInstance) =
        .error (.llm e) ∧ e.name = ErrorName.authenticationError ∧ e.provider = "openai") ∧
    (∃ p reg', resolveProvider (some "gpt-4o") cfgOpenaiOk (Registry.empty ProviderInstance) =
        .ok (p, reg') ∧ p.getName = "openai") := by
  intro providerName config reg
  refine ⟨?_, ?_, ?_, ?_⟩
  · intro hmiss
    refine ⟨?_, rfl, rfl⟩
    rcases hmiss with hmiss | hmiss
    · have hp : config.providers providerName = none := by
        rcases h : config.providers providerName with _ | c
        · rfl
        · rw [getProviderKey, h] at hmiss
          cases hmiss
      simp [resolveFinish, hp]
    · rcases Option.map_eq_some'.mp hmiss with ⟨c, hc, hk⟩
      simp [resolveFinish, hc, hk]
  · intro cred hcred hne hval
    refine ⟨?_, rfl, rfl⟩
    have hkb : (cred.apiKey == "") = false := by simp [hne]
    simp [resolveFinish, hcred, hkb, hval]
  · exact ⟨authKeyMissingError "openai", rfl, rfl, rfl⟩
  · exact ⟨ProviderInstance.openai
      { apiKey := "sk-valid-openai-key", baseUrl := none, timeout := none, maxRetries := none },
      { providers := [("openai", ProviderInstance.openai
          { apiKey := "sk-valid-openai-key", baseUrl := none, timeout := none,
            maxRetries := none })]
        modelToProvider := [("gpt-4o", "openai"), ("gpt-4-turbo", "openai"),
          ("gpt-4", "openai"), ("gpt-3.5-turbo", "openai")]
        defaultProviderName := none },
      rfl, rfl⟩

/-- Witness for C2: resolving credentials for "openai" against an empty
configuration yields the Authentication error naming it. -/
theorem c2_credential_checks_witness :
    resolveFinish "openai" emptyConfig (Registry.empty ProviderInstance) =
      .error (.llm (authKeyMissingError "openai")) ∧
    (authKeyMissingError "openai").name = ErrorName.authenticationError ∧
    (authKeyMissingError "openai").provider = "openai" :=
  (c2_credential_checks "openai" emptyConfig (Registry.empty ProviderInstance)).1 (Or.inl rfl)

/-! ### C6: code-block extraction -/

/-- C6 counterexample: on content holding an unclosed fence, with a language in
the context, no fenced block matches, yet the extraction returns the lines after
the fence-delimiter line instead of the full trimmed content the claim
requires. -/
theorem c6_counterexample :
    firstFencedBlock "```ts\nfoo" = none ∧
    extractCodeFromResponse "```ts\nfoo" (some "ts") = "foo" ∧
    jsTrim "```ts\nfoo" = "```ts\nfoo" ∧
    ("foo" : String) ≠ "```ts\nfoo" :=
  ⟨by decide, by decide, by decide, by decide⟩

/-- C6 (amended): the extraction returns the first fenced block, trimmed, when
the fence pattern matches anywhere in the content; when it does not, and either
no (non-empty) language is given or the fence-delimiter line scan collects
nothing, it falls back to the full trimmed content; but when a language is given
and the line scan collects lines, those lines joined and trimmed are returned
instead. -/
theorem c6_code_extraction :
    ∀ (content : String) (language : Option String),
    (∀ g, firstFencedBlock content = some g →
      extractCodeFromResponse content language = jsTrim g) ∧
    (firstFencedBlock content = none → strTruthy language = false →
      extractCodeFromResponse content language = jsTrim content) ∧
    (firstFencedBlock content = none → strTruthy language = true →
      scanFenceLines (jsSplitNl content) false = [] →
      extractCodeFromResponse content language = jsTrim content) ∧
    (∀ ls, firstFencedBlock content = none → strTruthy language = true →
      scanFenceLines (jsSplitNl content) false = ls → ls ≠ [] →
      extractCodeFromResponse content language = jsTrim (joinNl ls)) := by
  intro content language
  refine ⟨?_, ?_, ?_, ?_⟩
  · intro g hg
    simp [extractCodeFromResponse, hg]
  · intro h0 hl
    simp [extractCodeFromResponse, h0, hl]
  · intro h0 hl hs
    simp [extractCodeFromResponse, h0, hl, hs]
  · intro ls h0 hl hs hne
    have hlen : ls.length > 0 := List.length_pos.mpr hne
    simp [extractCodeFromResponse, h0, hl, hs, hlen]

/-- Witness for C6 on a content with one fenced block. -/
theorem c6_code_extraction_witness :
    extractCodeFromResponse "```\nx\n```" none = jsTrim "x\n" :=
  (c6_code_extraction "```\nx\n```" none).1 "x\n" (by decide)

/-! ### C7: stream chunk handling -/

/-- DashScope JSON text of a well-formed stream chunk with content "one". -/
def goodChunkJson : String :=
  "\x7b\"output\":\x7b\"choices\":[\x7b\"message\":\x7b\"content\":\"one\"\x7d\x7d]\x7d\x7d"

/-- The structure `JSON.parse` yields for `goodChunkJson`. -/
def goodChunkParsed : DashScopeResponse :=
  { output := some
      { choices := some [{ message := some { content := some "one" }, finish_reason := none }]
        usage := none }
    code := none
    message := none
    request_id := none }

/-- Models `JSON.parse` on the payloads appearing in the C7 scenarios: the
well-formed chunk text parses to its structure, the empty JSON object parses to
a response with every field absent, and everything else fails to parse. -/
def parseScenario : String → Option DashScopeResponse := fun s =>
  if s == goodChunkJson then some goodChunkParsed
  else if s == "\x7b\x7d" then
    some { output := none, code := none, message := none, request_id := none }
  else none

/-- The normalized response the good chunk yields. -/
def goodResp : LLMResponse :=
  { content := "one", provider := "qwen", model := "qwen-turbo", tokensUsed := none,
    finishReason := none, requestId := none, respCode := none }

/-- C7: the stream loop yields, in order, a normalized response for each
well-formed data chunk; it skips each individually malformed chunk — one that
fails JSON parsing, or one that parses while lacking a first choice with a
message — without raising, the stream continuing with the remaining lines; and
it terminates at the "[DONE]" sentinel. Blank and non-"data:" lines are passed
over. -/
theorem c7_stream_chunks :
    ∀ (parse : String → Option DashScopeResponse) (model line : String) (rest : List String),
    (jsTrim line = "" ∨ jsStartsWith line "data: " = false →
      qwenProcessStreamLines parse model (line :: rest) =
        qwenProcessStreamLines parse model rest) ∧
    (jsTrim line ≠ "" → jsStartsWith line "data: " = true → jsSlice line 6 = "[DONE]" →
      qwenProcessStreamLines parse model (line :: rest) = []) ∧
    (jsTrim line ≠ "" → jsStartsWith line "data: " = true → jsSlice line 6 ≠ "[DONE]" →
      parse (jsSlice line 6) = none →
      qwenProcessStreamLines parse model (line :: rest) =
        qwenProcessStreamLines parse model rest) ∧
    (∀ r e, jsTrim line ≠ "" → jsStartsWith line "data: " = true →
      jsSlice line 6 ≠ "[DONE]" → parse (jsSlice line 6) = some r →
      qwenParseResponse r model = .error e →
      qwenProcessStreamLines parse model (line :: rest) =
        qwenProcessStreamLines parse model rest) ∧
    (∀ r resp, jsTrim line ≠ "" → jsStartsWith line "data: " = true →
      jsSlice line 6 ≠ "[DONE]" → parse (jsSlice line 6) = some r →
      qwenParseResponse r model = .ok resp →
      qwenProcessStreamLines parse model (line :: rest) =
        resp :: qwenProcessStreamLines parse model rest) := by
  intro parse model line rest
  refine ⟨?_, ?_, ?_, ?_, ?_⟩
  · intro h
    have hb : (jsTrim line == "" || !jsStartsWith line "data: ") = true := by
      rcases h with h | h
      · simp [h]
      · simp [h]
    simp [qwenProcessStreamLines, hb]
  · intro h1 h2 h3
    have hb : (jsTrim line == "" || !jsStartsWith line "data: ") = false := by
      simp [h1, h2]
    simp [qwenProcessStreamLines, hb, h3]
  · intro h1 h2 h3 hp
    have hb : (jsTrim line == "" || !jsStartsWith line "data: ") = false := by
      simp [h1, h2]
    simp [qwenProcessStreamLines, hb, h3, hp]
  · intro r e h1 h2 h3 hp herr
    have hb : (jsTrim line == "" || !jsStartsWith line "data: ") = false := by
      simp [h1, h2]
    simp [qwenProcessStreamLines, hb, h3, hp, herr]
  · intro r resp h1 h2 h3 hp hok
    have hb : (jsTrim line == "" || !jsStartsWith line "data: ") = false := by
      simp [h1, h2]
    simp [qwenProcessStreamLines, hb, h3, hp, hok]

/-- Witness for C7: the malformed chunk (valid JSON, no `choices[0].message`)
is skipped without raising, the stream continuing with the remaining lines. -/
theorem c7_stream_chunks_witness :
    qwenProcessStreamLines parseScenario "qwen-turbo"
        [("data: \x7b\x7d"), ("data: " ++ goodChunkJson)] =
      qwenProcessStreamLines parseScenario "qwen-turbo" [("data: " ++ goodChunkJson)] :=
  (c7_stream_chunks parseScenario "qwen-turbo" "data: \x7b\x7d"
      [("data: " ++ goodChunkJson)]).2.2.2.1
    { output := none, code := none, message := none, request_id := none }
    (ProviderError "Invalid response format from DashScope API" "qwen" "INVALID_RESPONSE" none)
    (by decide) (by decide) (by decide) (by decide) rfl

end Xyzulu
